import Mathlib

/-!
Shallow embedding of `src/scripts/generate-file-icons.py`, a one-shot
generator of multi-resolution document icons.

Modelling conventions:
* Python integers are `ℤ`; Python floats are modelled by exact rationals
  `ℚ` (every float literal in the source is a short decimal, and all
  products stay far from integer boundaries at the sizes involved, so
  exact-rational semantics agrees with the source's float semantics on
  the size list).
* `int(x)` in Python truncates toward zero; `truncQ` mirrors this.
* Drawing is side-effecting in the source (PIL `draw.*` calls); here each
  drawing routine returns the list of primitive draw commands it issues,
  in order.  A frame is the pair (side length, command list).
* Font loading (`ImageFont.truetype`, which may raise `OSError`) is
  modelled by an environment `env : String → Bool` saying which named
  font files resolve; `draw.textbbox` is an oracle
  `bbox : Font → String → BBox` since text metrics live in the external
  font rasteriser.
-/

namespace IconGen

/-- Python `int()` on an exact rational: truncation toward zero. -/
def truncQ (q : ℚ) : ℤ := if 0 ≤ q then ⌊q⌋ else ⌈q⌉

/-- An RGB color triple (each Python color tuple in the source). -/
structure Color where
  r : ℤ
  g : ℤ
  b : ℤ
deriving DecidableEq, Repr

/-- One entry of the `COLORS` table: the four named colors of a scheme. -/
structure ColorScheme where
  accent : Color
  accent_dark : Color
  label_bg : Color
  label_text : Color
deriving DecidableEq, Repr

/-- The `"o2d"` color scheme (blue). -/
def o2dScheme : ColorScheme :=
  { accent := ⟨59, 130, 246⟩
    accent_dark := ⟨37, 99, 235⟩
    label_bg := ⟨59, 130, 246⟩
    label_text := ⟨255, 255, 255⟩ }

/-- The `"dxf"` color scheme (green). -/
def dxfScheme : ColorScheme :=
  { accent := ⟨34, 197, 94⟩
    accent_dark := ⟨22, 163, 74⟩
    label_bg := ⟨34, 197, 94⟩
    label_text := ⟨255, 255, 255⟩ }

/-- The `COLORS` table, in source order. -/
def COLORS : List (String × ColorScheme) := [("o2d", o2dScheme), ("dxf", dxfScheme)]

/-- Fixed logo palette constants. -/
def LOGO_BG : Color := ⟨25, 28, 50⟩

def LOGO_SQUARE : Color := ⟨230, 57, 80⟩

def LOGO_CIRCLE : Color := ⟨0, 230, 118⟩

def LOGO_LINE : Color := ⟨255, 255, 255⟩

def LOGO_DOT : Color := ⟨230, 57, 100⟩

/-- `ICO_SIZES = [16, 32, 48, 64, 256]`. -/
def ICO_SIZES : List ℤ := [16, 32, 48, 64, 256]

/-- A resolved font: a named truetype file at a pixel size, or PIL's
built-in default font (`ImageFont.load_default()`). -/
inductive Font where
  | truetype (name : String) (size : ℤ)
  | default
deriving DecidableEq, Repr

/-- A text bounding box as returned by `draw.textbbox`. -/
structure BBox where
  x0 : ℚ
  y0 : ℚ
  x1 : ℚ
  y1 : ℚ
deriving DecidableEq, Repr

/-- One primitive PIL draw call, with its arguments. -/
inductive DrawOp where
  | polygon (points : List (ℚ × ℚ)) (fill : Option Color) (outline : Option Color)
  | rectangle (x0 y0 x1 y1 : ℚ) (fill : Option Color) (outline : Option Color) (width : ℤ)
  | roundedRectangle (x0 y0 x1 y1 : ℚ) (radius : ℤ) (fill : Color)
  | ellipse (x0 y0 x1 y1 : ℚ) (fill : Option Color) (outline : Option Color) (width : ℤ)
  | line (x0 y0 x1 y1 : ℚ) (fill : Color) (width : ℤ)
  | text (x y : ℚ) (str : String) (fill : Color) (font : Font)
deriving DecidableEq, Repr

/-- The geometry returned by `draw_document_page`. -/
structure PageGeom where
  page_left : ℤ
  page_top : ℤ
  page_right : ℤ
  page_bottom : ℤ
  fold : ℤ
deriving DecidableEq, Repr

/-- `margin = max(1, int(s * 0.08))`. -/
def margin (s : ℤ) : ℤ := max 1 (truncQ ((s : ℚ) * (8 / 100)))

/-- `fold = max(2, int(s * fold_ratio))`. -/
def fold_len (s : ℤ) (fold_ratio : ℚ) : ℤ := max 2 (truncQ ((s : ℚ) * fold_ratio))

/-- `shadow_offset = max(1, int(s * 0.02))` (only used when `s >= 32`). -/
def shadow_offset (s : ℤ) : ℤ := max 1 (truncQ ((s : ℚ) * (2 / 100)))

/-- `draw_document_page(draw, size, fold_ratio=0.22)`: emits the shadow
polygon (when `32 ≤ s`), the page body polygon and the folded-corner
triangle, and returns the page bounds plus fold length. -/
def draw_document_page (s : ℤ) (fold_ratio : ℚ) : List DrawOp × PageGeom :=
  let m := margin s
  let fold := fold_len s fold_ratio
  let pl := m
  let pt := m
  let pr := s - m - 1
  let pb := s - m - 1
  let shadow : List DrawOp :=
    if 32 ≤ s then
      let so := shadow_offset s
      [DrawOp.polygon
        [(((pl + so : ℤ) : ℚ), ((pt + fold + so : ℤ) : ℚ)),
         (((pr - fold + so : ℤ) : ℚ), ((pt + so : ℤ) : ℚ)),
         (((pr + so : ℤ) : ℚ), ((pt + fold + so : ℤ) : ℚ)),
         (((pr + so : ℤ) : ℚ), ((pb + so : ℤ) : ℚ)),
         (((pl + so : ℤ) : ℚ), ((pb + so : ℤ) : ℚ))]
        (some ⟨180, 180, 180⟩) none]
    else []
  let body := DrawOp.polygon
    [(((pl : ℤ) : ℚ), ((pt : ℤ) : ℚ)),
     (((pr - fold : ℤ) : ℚ), ((pt : ℤ) : ℚ)),
     (((pr : ℤ) : ℚ), ((pt + fold : ℤ) : ℚ)),
     (((pr : ℤ) : ℚ), ((pb : ℤ) : ℚ)),
     (((pl : ℤ) : ℚ), ((pb : ℤ) : ℚ))]
    (some ⟨255, 255, 255⟩) (some ⟨200, 200, 200⟩)
  let foldTri := DrawOp.polygon
    [(((pr - fold : ℤ) : ℚ), ((pt : ℤ) : ℚ)),
     (((pr : ℤ) : ℚ), ((pt + fold : ℤ) : ℚ)),
     (((pr - fold : ℤ) : ℚ), ((pt + fold : ℤ) : ℚ))]
    (some ⟨230, 230, 235⟩) (some ⟨200, 200, 200⟩)
  (shadow ++ [body, foldTri], ⟨pl, pt, pr, pb, fold⟩)

/-- `label_height = max(4, int(size * 0.18))`. -/
def label_height (size : ℤ) : ℤ := max 4 (truncQ ((size : ℚ) * (18 / 100)))

/-- `label_margin = max(0, int(size * 0.02))`. -/
def label_margin (size : ℤ) : ℤ := max 0 (truncQ ((size : ℚ) * (2 / 100)))

/-- `font_size = max(6, int(label_height * 0.8))`. -/
def font_size (size : ℤ) : ℤ := max 6 (truncQ ((label_height size : ℚ) * (8 / 10)))

/-- The try/except chain of `draw_extension_label` (lines 165-171): try
`arialbd.ttf`, on failure try `arial.ttf`, on failure take
`ImageFont.load_default()`, which cannot fail. -/
def resolve_font (env : String → Bool) (fs : ℤ) : Font :=
  if env "arialbd.ttf" then Font.truetype "arialbd.ttf" fs
  else if env "arial.ttf" then Font.truetype "arial.ttf" fs
  else Font.default

/-- `draw_extension_label(draw, text, page_left, page_right, page_bottom,
size, colors)`: the label background bar, then the centered extension
text with the resolved font. -/
def draw_extension_label (env : String → Bool) (bbox : Font → String → BBox)
    (text : String) (page_left page_right page_bottom size : ℤ)
    (colors : ColorScheme) : List DrawOp :=
  let lh := label_height size
  let label_top := page_bottom - lh
  let lm := label_margin size
  let bar := DrawOp.rectangle ((page_left + lm : ℤ) : ℚ) ((label_top : ℤ) : ℚ)
    ((page_right - lm : ℤ) : ℚ) ((page_bottom - lm : ℤ) : ℚ)
    (some colors.label_bg) none 0
  let font := resolve_font env (font_size size)
  let b := bbox font text
  let tw := b.x1 - b.x0
  let th := b.y1 - b.y0
  let tx := ((page_left : ℚ) + (page_right : ℚ)) / 2 - tw / 2
  let ty := ((label_top : ℤ) : ℚ) + (((lh : ℤ) : ℚ) - ((lm : ℤ) : ℚ) - th) / 2 - b.y0
  [bar, DrawOp.text tx ty text colors.label_text font]

/-- `bar_height = max(1, int(size * 0.04))`. -/
def bar_height (size : ℤ) : ℤ := max 1 (truncQ ((size : ℚ) * (4 / 100)))

/-- `bar_margin = max(0, int(size * 0.02))`. -/
def bar_margin (size : ℤ) : ℤ := max 0 (truncQ ((size : ℚ) * (2 / 100)))

/-- `draw_accent_bar(draw, page_left, page_top, fold, size, colors)`. -/
def draw_accent_bar (page_left page_top _fold size : ℤ) (colors : ColorScheme) :
    List DrawOp :=
  let bh := bar_height size
  let bm := bar_margin size
  [DrawOp.rectangle ((page_left + bm : ℤ) : ℚ) ((page_top + bm : ℤ) : ℚ)
    ((page_left : ℚ) + (size : ℚ) * (55 / 100)) ((page_top + bm + bh : ℤ) : ℚ)
    (some colors.accent) none 0]

/-- `line_w = max(1, int(r * 0.12))`, the square/circle stroke width. -/
def app_logo_line_w (r : ℚ) : ℤ := max 1 (truncQ (r * (12 / 100)))

/-- `max(1, int(r * 0.1))`, the diagonal-line stroke width. -/
def app_logo_stroke_w (r : ℚ) : ℤ := max 1 (truncQ (r * (1 / 10)))

/-- `dot_r = max(1, int(r * 0.1))`, the endpoint dot radius. -/
def app_logo_dot_r (r : ℚ) : ℤ := max 1 (truncQ (r * (1 / 10)))

/-- `draw_app_logo(draw, cx, cy, logo_size)`: backdrop, outlined square,
outlined circle, diagonal line, and the two endpoint dots, in order. -/
def draw_app_logo (cx cy logo_size : ℚ) : List DrawOp :=
  let r := logo_size / 2
  let bg_margin := r * (1 / 10)
  let backdrop := DrawOp.roundedRectangle (cx - r - bg_margin) (cy - r - bg_margin)
    (cx + r + bg_margin) (cy + r + bg_margin)
    (max 1 (truncQ (r * (25 / 100)))) LOGO_BG
  let sq_size := r * (55 / 100)
  let sq_x := cx - r * (45 / 100)
  let sq_y := cy - r * (45 / 100)
  let lw := app_logo_line_w r
  let square := DrawOp.rectangle (sq_x - sq_size / 2) (sq_y - sq_size / 2)
    (sq_x + sq_size / 2) (sq_y + sq_size / 2) none (some LOGO_SQUARE) lw
  let circ_r := r * (35 / 100)
  let circ_x := cx + r * (35 / 100)
  let circ_y := cy + r * (35 / 100)
  let circle := DrawOp.ellipse (circ_x - circ_r) (circ_y - circ_r)
    (circ_x + circ_r) (circ_y + circ_r) none (some LOGO_CIRCLE) lw
  let line_x1 := cx - r * (65 / 100)
  let line_y1 := cy + r * (55 / 100)
  let line_x2 := cx + r * (6 / 10)
  let line_y2 := cy - r * (6 / 10)
  let diag := DrawOp.line line_x1 line_y1 line_x2 line_y2 LOGO_LINE (app_logo_stroke_w r)
  let dr := app_logo_dot_r r
  let dot1 := DrawOp.ellipse (line_x1 - dr) (line_y1 - dr) (line_x1 + dr) (line_y1 + dr)
    (some LOGO_DOT) none 0
  let dot2 := DrawOp.ellipse (line_x2 - dr) (line_y2 - dr) (line_x2 + dr) (line_y2 + dr)
    (some LOGO_DOT) none 0
  [backdrop, square, circle, diag, dot1, dot2]

/-- The per-size body of `generate_icon` is decomposed below into the page
draw, the guarded accent draw, the logo-region computation, the guarded
logo draw and the label draw; `generate_frame` recombines them in source
order.  The page is drawn with the default `fold_ratio = 0.22`. -/
def page_ops (size : ℤ) : List DrawOp := (draw_document_page size (22 / 100)).1

/-- The geometry tuple `pl, pt, pr, pb, fold` unpacked in the loop. -/
def page_geom (size : ℤ) : PageGeom := (draw_document_page size (22 / 100)).2

/-- The accent-bar draw ops issued when `size >= 32`. -/
def accent_ops (size : ℤ) (colors : ColorScheme) : List DrawOp :=
  draw_accent_bar (page_geom size).page_left (page_geom size).page_top
    (page_geom size).fold size colors

/-- `logo_area_top = pt + fold + max(1, int(size * 0.04))`. -/
def logo_area_top (size : ℤ) : ℤ :=
  (page_geom size).page_top + (page_geom size).fold + max 1 (truncQ ((size : ℚ) * (4 / 100)))

/-- `logo_area_bottom = pb - max(4, int(size * 0.20))`. -/
def logo_area_bottom (size : ℤ) : ℤ :=
  (page_geom size).page_bottom - max 4 (truncQ ((size : ℚ) * (2 / 10)))

/-- `logo_center_y = (logo_area_top + logo_area_bottom) / 2` (true division). -/
def logo_center_y (size : ℤ) : ℚ :=
  ((logo_area_top size : ℤ) + (logo_area_bottom size : ℤ) : ℤ) / (2 : ℚ)

/-- `logo_center_x = (pl + pr) / 2` (true division). -/
def logo_center_x (size : ℤ) : ℚ :=
  (((page_geom size).page_left + (page_geom size).page_right : ℤ) : ℚ) / 2

/-- `logo_size = min((pr - pl) * 0.55, (logo_area_bottom - logo_area_top) * 0.85)`. -/
def logo_size (size : ℤ) : ℚ :=
  min ((((page_geom size).page_right - (page_geom size).page_left : ℤ) : ℚ) * (55 / 100))
    (((logo_area_bottom size - logo_area_top size : ℤ) : ℚ) * (85 / 100))

/-- The logo draw ops issued when `size >= 32`. -/
def logo_ops (size : ℤ) : List DrawOp :=
  draw_app_logo (logo_center_x size) (logo_center_y size) (logo_size size)

/-- `label_text = f".{ext.upper()}"`, replaced by `ext.upper()` when
`size <= 16`. -/
def label_text (ext : String) (size : ℤ) : String :=
  if size ≤ 16 then ext.toUpper else "." ++ ext.toUpper

/-- The label draw ops (always issued). -/
def label_ops (env : String → Bool) (bbox : Font → String → BBox)
    (ext : String) (size : ℤ) (colors : ColorScheme) : List DrawOp :=
  draw_extension_label env bbox (label_text ext size) (page_geom size).page_left
    (page_geom size).page_right (page_geom size).page_bottom size colors

/-- One frame: everything `generate_icon` draws onto the canvas of a given
size, in source order (page with shadow, then accent bar and logo when
`size >= 32`, then the extension label). -/
def generate_frame (env : String → Bool) (bbox : Font → String → BBox)
    (ext : String) (size : ℤ) (colors : ColorScheme) : List DrawOp :=
  page_ops size
    ++ (if 32 ≤ size then accent_ops size colors else [])
    ++ (if 32 ≤ size then logo_ops size else [])
    ++ label_ops env bbox ext size colors

/-- A frame as handed to the container writer: side length plus draw ops. -/
abbrev Frame : Type := ℤ × List DrawOp

/-- Stable insertion into a list sorted by strictly descending side
length; `sortDesc` mirrors `sorted(images, key=lambda im: im.size[0],
reverse=True)`. -/
def insertDesc (f : Frame) : List Frame → List Frame
  | [] => [f]
  | g :: gs => if g.1 < f.1 then f :: g :: gs else g :: insertDesc f gs

/-- Sort frames by descending side length. -/
def sortDesc : List Frame → List Frame
  | [] => []
  | f :: fs => insertDesc f (sortDesc fs)

/-- `generate_icon(ext, colors)`: render one frame per size in
`ICO_SIZES`, sort the frames largest-first, and hand them to the `.ico`
writer under the output name `f"{ext}-document.ico"`.  The result models
(file name, ordered frame list given to the writer). -/
def generate_icon (env : String → Bool) (bbox : Font → String → BBox)
    (ext : String) (colors : ColorScheme) : String × List Frame :=
  let images : List Frame := ICO_SIZES.map fun s => (s, generate_frame env bbox ext s colors)
  (ext ++ "-document.ico", sortDesc images)

/-- `main()`: one `generate_icon` call per `COLORS` entry, in table order. -/
def main_outputs (env : String → Bool) (bbox : Font → String → BBox) :
    List (String × List Frame) :=
  COLORS.map fun p => generate_icon env bbox p.1 p.2

/-- The strings drawn by a list of ops, in order (projection used to state
label-content properties). -/
def frame_texts (ops : List DrawOp) : List String :=
  ops.filterMap fun op =>
    match op with
    | DrawOp.text _ _ str _ _ => some str
    | _ => none

/-- A font environment in which no named truetype file resolves. -/
def noFonts : String → Bool := fun _ => false

/-- A trivial text-metrics oracle (used only to instantiate witnesses). -/
def zeroBBox : Font → String → BBox := fun _ _ => ⟨0, 0, 0, 0⟩

/-- The top of the logo region as the claim words it: `page_top + fold +
4% of size`, the percentage truncated to an integer as everywhere else,
with no lower clamp.  Stated for comparison with `logo_area_top`, which
the source computes with `max(1, ...)`. -/
def spec_logo_area_top (size : ℤ) : ℤ :=
  (page_geom size).page_top + (page_geom size).fold + truncQ ((size : ℚ) * (4 / 100))

/-- Truncation agrees with the floor on non-negative rationals. -/
lemma truncQ_eq_floor (q : ℚ) (h : 0 ≤ q) : truncQ q = ⌊q⌋ := if_pos h

/-- Evaluation rule for `truncQ` at a non-negative rational. -/
lemma truncQ_eq (q : ℚ) (n : ℤ) (h0 : 0 ≤ q) (h1 : (n : ℚ) ≤ q) (h2 : q < n + 1) :
    truncQ q = n := by
  rw [truncQ_eq_floor q h0]
  exact Int.floor_eq_iff.mpr ⟨h1, h2⟩

lemma margin_sixteen : margin 16 = 1 := by
  rw [margin,
    truncQ_eq (((16 : ℤ) : ℚ) * (8 / 100)) 1 (by norm_num) (by norm_num) (by norm_num)]
  omega

lemma margin_thirtytwo : margin 32 = 2 := by
  rw [margin,
    truncQ_eq (((32 : ℤ) : ℚ) * (8 / 100)) 2 (by norm_num) (by norm_num) (by norm_num)]
  omega

lemma fold_sixteen : fold_len 16 (22 / 100) = 3 := by
  rw [fold_len,
    truncQ_eq (((16 : ℤ) : ℚ) * (22 / 100)) 3 (by norm_num) (by norm_num) (by norm_num)]
  omega

lemma label_margin_sixteen : label_margin 16 = 0 := by
  rw [label_margin,
    truncQ_eq (((16 : ℤ) : ℚ) * (2 / 100)) 0 (by norm_num) (by norm_num) (by norm_num)]
  omega

lemma bar_margin_fortyeight : bar_margin 48 = 0 := by
  rw [bar_margin,
    truncQ_eq (((48 : ℤ) : ℚ) * (2 / 100)) 0 (by norm_num) (by norm_num) (by norm_num)]
  omega

lemma label_height_fortyeight : label_height 48 = 8 := by
  rw [label_height,
    truncQ_eq (((48 : ℤ) : ℚ) * (18 / 100)) 8 (by norm_num) (by norm_num) (by norm_num)]
  omega

lemma page_geom_sixteen : page_geom 16 = ⟨1, 1, 14, 14, 3⟩ := by
  simp only [page_geom, draw_document_page, margin_sixteen, fold_sixteen]
  norm_num

/-- A copy of the `"o2d"` scheme differing only in `accent_dark` (used to
instantiate the non-interference property at a concrete pair). -/
def altScheme : ColorScheme := { o2dScheme with accent_dark := ⟨0, 0, 0⟩ }

/-- C10: for every canvas size and fold ratio, the page rectangle returned
by `draw_document_page` is placed symmetrically: `page_left = page_top =
margin` and `page_right = page_bottom = s - margin - 1`, so the page
region's width always equals its height. -/
theorem C10_page_square (s : ℤ) (fr : ℚ) :
    (draw_document_page s fr).2.page_left = margin s ∧
    (draw_document_page s fr).2.page_top = margin s ∧
    (draw_document_page s fr).2.page_right = s - margin s - 1 ∧
    (draw_document_page s fr).2.page_bottom = s - margin s - 1 ∧
    (draw_document_page s fr).2.page_right - (draw_document_page s fr).2.page_left
      = (draw_document_page s fr).2.page_bottom - (draw_document_page s fr).2.page_top :=
  ⟨rfl, rfl, rfl, rfl, rfl⟩

/-- C2 counterexample: at canvas size 32 the code computes
`max(1, int(32 * 0.08)) = max(1, 2) = 2`, whereas the claimed arithmetic
rounding would give `max(1, round(2.56)) = 3`; the claim is false at
s = 32. -/
theorem C2_counterexample :
    margin 32 ≠ max 1 (round (((32 : ℤ) : ℚ) * (8 / 100))) := by
  have hr : round (((32 : ℤ) : ℚ) * (8 / 100)) = 3 := by
    rw [round_eq]
    exact Int.floor_eq_iff.mpr (by constructor <;> norm_num)
  rw [margin_thirtytwo, hr]
  omega

/-- C2 amended: for every positive canvas size s and non-negative fold
ratio, `margin = max(1, ⌊0.08 s⌋)` and `fold = max(2, ⌊fr s⌋)`: the
size-proportional values are truncated (floor, on these non-negative
values) as Python `int()` does, not rounded to the nearest integer. -/
theorem C2_margin_fold_amended (s : ℤ) (hs : 0 < s) (fr : ℚ) (hfr : 0 ≤ fr) :
    margin s = max 1 ⌊(s : ℚ) * (8 / 100)⌋ ∧
    fold_len s fr = max 2 ⌊(s : ℚ) * fr⌋ := by
  have hs' : (0 : ℚ) ≤ (s : ℚ) := by exact_mod_cast hs.le
  exact ⟨by rw [margin, truncQ_eq_floor _ (mul_nonneg hs' (by norm_num))],
    by rw [fold_len, truncQ_eq_floor _ (mul_nonneg hs' hfr)]⟩

/-- Witness for the amended C2 at s = 32, fr = 0.22. -/
theorem C2_margin_fold_amended_witness :
    (0 : ℤ) < 32 ∧ (0 : ℚ) ≤ 22 / 100 ∧
    (margin 32 = max 1 ⌊((32 : ℤ) : ℚ) * (8 / 100)⌋ ∧
      fold_len 32 (22 / 100) = max 2 ⌊((32 : ℤ) : ℚ) * (22 / 100)⌋) :=
  ⟨by norm_num, by norm_num,
    C2_margin_fold_amended 32 (by norm_num) (22 / 100) (by norm_num)⟩

/-- C6: for every integer canvas size at least 16, the page geometry has
margin at least 1, fold at least 2, and a strictly non-degenerate page
rectangle. -/
theorem C6_page_geom_invariant (s : ℤ) (hs : 16 ≤ s) :
    1 ≤ margin s ∧ 2 ≤ (page_geom s).fold ∧
    (page_geom s).page_left < (page_geom s).page_right ∧
    (page_geom s).page_top < (page_geom s).page_bottom := by
  have hs' : (0 : ℚ) ≤ (s : ℚ) := by exact_mod_cast (by omega : (0 : ℤ) ≤ s)
  obtain ⟨m, hm⟩ : ∃ m, ⌊(s : ℚ) * (8 / 100)⌋ = m := ⟨_, rfl⟩
  have hmdef : margin s = max 1 m := by
    rw [margin, truncQ_eq_floor _ (mul_nonneg hs' (by norm_num)), hm]
  have hle : (m : ℚ) ≤ (s : ℚ) * (8 / 100) := hm ▸ Int.floor_le _
  have h100 : (100 : ℚ) * (m : ℚ) ≤ 8 * (s : ℚ) := by linarith
  have h100i : (100 : ℤ) * m ≤ 8 * s := by exact_mod_cast h100
  have hpl : (page_geom s).page_left = margin s := rfl
  have hpr : (page_geom s).page_right = s - margin s - 1 := rfl
  have hpt : (page_geom s).page_top = margin s := rfl
  have hpb : (page_geom s).page_bottom = s - margin s - 1 := rfl
  have hfold : 2 ≤ (page_geom s).fold := le_max_left 2 _
  refine ⟨hmdef ▸ le_max_left 1 m, hfold, ?_, ?_⟩
  · rw [hpl, hpr, hmdef]; omega
  · rw [hpt, hpb, hmdef]; omega

/-- Witness for C6 at the smallest listed size s = 16. -/
theorem C6_page_geom_invariant_witness :
    (16 : ℤ) ≤ 16 ∧
    (1 ≤ margin 16 ∧ 2 ≤ (page_geom 16).fold ∧
      (page_geom 16).page_left < (page_geom 16).page_right ∧
      (page_geom 16).page_top < (page_geom 16).page_bottom) :=
  ⟨by norm_num, C6_page_geom_invariant 16 (by norm_num)⟩

/-- C3: for every font environment and metrics oracle, the assembler
produces exactly one container per configured file-type, and the frame
list handed to the writer for each has the sizes 256, 64, 48, 32, 16 in
that strictly descending order (in particular exactly 5 frames). -/
theorem C3_frames_sorted_desc (env : String → Bool) (bbox : Font → String → BBox) :
    (main_outputs env bbox).map (fun p => (p.1, p.2.map Prod.fst))
      = [("o2d-document.ico", [256, 64, 48, 32, 16]),
         ("dxf-document.ico", [256, 64, 48, 32, 16])] := rfl

/-- C9: the rendered frame is independent of the `accent_dark` entry: any
two schemes agreeing on `accent`, `label_bg` and `label_text` produce
identical draw-op lists for every extension and size. -/
theorem C9_accent_dark_independent (env : String → Bool) (bbox : Font → String → BBox)
    (ext : String) (size : ℤ) (c1 c2 : ColorScheme)
    (ha : c1.accent = c2.accent) (hb : c1.label_bg = c2.label_bg)
    (ht : c1.label_text = c2.label_text) :
    generate_frame env bbox ext size c1 = generate_frame env bbox ext size c2 := by
  obtain ⟨a1, d1, b1, t1⟩ := c1
  obtain ⟨a2, d2, b2, t2⟩ := c2
  dsimp only at ha hb ht
  subst ha; subst hb; subst ht
  rfl

/-- Witness for C9: the `"o2d"` scheme against the same scheme with a
black `accent_dark`, at size 32. -/
theorem C9_accent_dark_independent_witness :
    o2dScheme.accent = altScheme.accent ∧ o2dScheme.label_bg = altScheme.label_bg ∧
    o2dScheme.label_text = altScheme.label_text ∧
    generate_frame noFonts zeroBBox "o2d" 32 o2dScheme
      = generate_frame noFonts zeroBBox "o2d" 32 altScheme :=
  ⟨rfl, rfl, rfl,
    C9_accent_dark_independent noFonts zeroBBox "o2d" 32 o2dScheme altScheme rfl rfl rfl⟩

/-- C4: for size 16 the frame is just the shadowless page (2 polygons)
followed by the label, with no accent bar and no logo; for every listed
size at least 32 the frame contains all four sub-renders: the page with
its shadow (3 polygons), a non-empty accent bar, a non-empty logo, and a
non-empty label. -/
theorem C4_fidelity_cutoff (env : String → Bool) (bbox : Font → String → BBox)
    (ext : String) (c : ColorScheme) :
    (generate_frame env bbox ext 16 c = page_ops 16 ++ label_ops env bbox ext 16 c ∧
      (page_ops 16).length = 2) ∧
    ∀ s, s ∈ ICO_SIZES → 32 ≤ s →
      generate_frame env bbox ext s c
          = page_ops s ++ accent_ops s c ++ logo_ops s ++ label_ops env bbox ext s c ∧
        (page_ops s).length = 3 ∧ accent_ops s c ≠ [] ∧ logo_ops s ≠ [] ∧
        label_ops env bbox ext s c ≠ [] := by
  refine ⟨⟨rfl, rfl⟩, ?_⟩
  intro s hs h32
  simp only [ICO_SIZES, List.mem_cons, List.not_mem_nil, or_false] at hs
  rcases hs with rfl | rfl | rfl | rfl | rfl
  · exact absurd h32 (by decide)
  all_goals
    exact ⟨rfl, rfl, by simp [accent_ops, draw_accent_bar],
      by simp [logo_ops, draw_app_logo], by simp [label_ops, draw_extension_label]⟩

/-- Witness for C4 at s = 32. -/
theorem C4_fidelity_cutoff_witness :
    (32 : ℤ) ∈ ICO_SIZES ∧ (32 : ℤ) ≤ 32 ∧
    (generate_frame noFonts zeroBBox "o2d" 32 o2dScheme
        = page_ops 32 ++ accent_ops 32 o2dScheme ++ logo_ops 32
          ++ label_ops noFonts zeroBBox "o2d" 32 o2dScheme ∧
      (page_ops 32).length = 3 ∧ accent_ops 32 o2dScheme ≠ [] ∧ logo_ops 32 ≠ [] ∧
      label_ops noFonts zeroBBox "o2d" 32 o2dScheme ≠ []) :=
  ⟨by decide, by decide,
    (C4_fidelity_cutoff noFonts zeroBBox "o2d" o2dScheme).2 32 (by decide) (by decide)⟩

/-- C5: for every listed size the frame draws exactly one text string,
namely the label text, which is `.` + uppercase extension for sizes
greater than 16 and the bare uppercase extension at size 16. -/
theorem C5_label_text (env : String → Bool) (bbox : Font → String → BBox)
    (ext : String) (c : ColorScheme) (s : ℤ) (hs : s ∈ ICO_SIZES) :
    frame_texts (generate_frame env bbox ext s c) = [label_text ext s] ∧
    (16 < s → label_text ext s = "." ++ ext.toUpper) ∧
    (s = 16 → label_text ext s = ext.toUpper) := by
  simp only [ICO_SIZES, List.mem_cons, List.not_mem_nil, or_false] at hs
  rcases hs with rfl | rfl | rfl | rfl | rfl
  · exact ⟨rfl, fun h => absurd h (by decide), fun _ => rfl⟩
  all_goals exact ⟨rfl, fun _ => rfl, fun h => absurd h (by decide)⟩

/-- Witness for C5 at s = 32 and s-independent parts evaluated for the
`"o2d"` extension. -/
theorem C5_label_text_witness :
    (32 : ℤ) ∈ ICO_SIZES ∧
    (frame_texts (generate_frame noFonts zeroBBox "o2d" 32 o2dScheme)
        = [label_text "o2d" 32] ∧
      (16 < (32 : ℤ) → label_text "o2d" 32 = "." ++ "o2d".toUpper) ∧
      ((32 : ℤ) = 16 → label_text "o2d" 32 = "o2d".toUpper)) :=
  ⟨by decide, C5_label_text noFonts zeroBBox "o2d" o2dScheme 32 (by decide)⟩

/-- C8: font resolution tries `arialbd.ttf`, then `arial.ttf`, in that
order; whenever both named sources fail it returns the built-in default
font, and in every environment the label renderer reaches the draw-text
step with the resolved font (exactly one text op, carrying the label
text). -/
theorem C8_font_fallback (env : String → Bool) (bbox : Font → String → BBox)
    (text : String) (pl pr pb size : ℤ) (colors : ColorScheme) :
    (env "arialbd.ttf" = true →
      resolve_font env (font_size size) = Font.truetype "arialbd.ttf" (font_size size)) ∧
    (env "arialbd.ttf" = false → env "arial.ttf" = true →
      resolve_font env (font_size size) = Font.truetype "arial.ttf" (font_size size)) ∧
    (env "arialbd.ttf" = false → env "arial.ttf" = false →
      resolve_font env (font_size size) = Font.default) ∧
    frame_texts (draw_extension_label env bbox text pl pr pb size colors) = [text] := by
  refine ⟨fun h1 => by simp [resolve_font, h1], fun h1 h2 => by simp [resolve_font, h1, h2],
    fun h1 h2 => by simp [resolve_font, h1, h2], rfl⟩

/-- Witness for C8 in an environment where every named source fails. -/
theorem C8_font_fallback_witness :
    noFonts "arialbd.ttf" = false ∧ noFonts "arial.ttf" = false ∧
    resolve_font noFonts (font_size 16) = Font.default ∧
    frame_texts (draw_extension_label noFonts zeroBBox "O2D" 1 14 14 16 o2dScheme)
      = ["O2D"] :=
  ⟨rfl, rfl,
    (C8_font_fallback noFonts zeroBBox "O2D" 1 14 14 16 o2dScheme).2.2.1 rfl rfl,
    (C8_font_fallback noFonts zeroBBox "O2D" 1 14 14 16 o2dScheme).2.2.2⟩

/-- C1 counterexample: at size 16 the label margin is
`max(0, int(16 * 0.02)) = 0`, not at least 1; and at size 48 the label
height is `max(4, int(8.64)) = 8`, whereas round-then-floor-at-the-clamp
would give `max(4, round(8.64)) = 9`.  The claimed invariant is false as
stated. -/
theorem C1_counterexample :
    ¬ (1 ≤ label_margin 16) ∧
    label_height 48 ≠ max 4 (round (((48 : ℤ) : ℚ) * (18 / 100))) := by
  have hr : round (((48 : ℤ) : ℚ) * (18 / 100)) = 9 := by
    rw [round_eq]
    exact Int.floor_eq_iff.mpr (by constructor <;> norm_num)
  rw [label_margin_sixteen, label_height_fortyeight, hr]
  exact ⟨by omega, by omega⟩

/-- C1 amended: every geometric offset is a non-negative integer obtained
by truncating the size-proportional value and clamping it below at a
per-offset constant; the page margin, fold, shadow offset, label height,
accent-bar height and the logo stroke widths and dot radius are all at
least 1 for every listed size, but the label margin and accent-bar margin
are clamped at 0, not 1, and are in fact 0 at small sizes. -/
theorem C1_offsets_amended :
    (∀ s ∈ ICO_SIZES,
      1 ≤ margin s ∧ 1 ≤ fold_len s (22 / 100) ∧ 1 ≤ shadow_offset s ∧
      1 ≤ label_height s ∧ 1 ≤ bar_height s ∧
      0 ≤ label_margin s ∧ 0 ≤ bar_margin s ∧
      1 ≤ app_logo_line_w (logo_size s / 2) ∧
      1 ≤ app_logo_stroke_w (logo_size s / 2) ∧
      1 ≤ app_logo_dot_r (logo_size s / 2)) ∧
    label_margin 16 = 0 ∧ bar_margin 48 = 0 := by
  refine ⟨fun s _ => ⟨le_max_left 1 _, ?_, le_max_left 1 _, ?_, le_max_left 1 _,
    le_max_left 0 _, le_max_left 0 _, le_max_left 1 _, le_max_left 1 _, le_max_left 1 _⟩,
    label_margin_sixteen, bar_margin_fortyeight⟩
  · exact le_trans (by norm_num) (le_max_left 2 _)
  · exact le_trans (by norm_num) (le_max_left 4 _)

/-- Witness for the amended C1 at s = 16. -/
theorem C1_offsets_amended_witness :
    (16 : ℤ) ∈ ICO_SIZES ∧
    (1 ≤ margin 16 ∧ 1 ≤ fold_len 16 (22 / 100) ∧ 1 ≤ shadow_offset 16 ∧
      1 ≤ label_height 16 ∧ 1 ≤ bar_height 16 ∧
      0 ≤ label_margin 16 ∧ 0 ≤ bar_margin 16 ∧
      1 ≤ app_logo_line_w (logo_size 16 / 2) ∧
      1 ≤ app_logo_stroke_w (logo_size 16 / 2) ∧
      1 ≤ app_logo_dot_r (logo_size 16 / 2)) :=
  ⟨by decide, C1_offsets_amended.1 16 (by decide)⟩

/-- C7 counterexample: at size 16 the code places the top of the logo
region at `page_top + fold + max(1, int(16 * 0.04)) = 5`, while the
claim's formula `page_top + fold + 4% of size` gives `4`: the claim omits
the lower clamp and is false at s = 16. -/
theorem C7_counterexample : logo_area_top 16 ≠ spec_logo_area_top 16 := by
  have h4 : truncQ (((16 : ℤ) : ℚ) * (4 / 100)) = 0 :=
    truncQ_eq _ 0 (by norm_num) (by norm_num) (by norm_num)
  simp only [logo_area_top, spec_logo_area_top, page_geom_sixteen, h4]
  omega

/-- C7 amended: the logo placement region has vertical extent from
`page_top + fold + max(1, 4% of size)` to `page_bottom − max(4, 20% of
size)`, horizontal center at the midpoint of `page_left` and
`page_right`, and logo diameter `min(55% of page width, 85% of the
vertical extent)`; for every listed size of at least 32 the lower clamp
is inactive, so there the claim's unclamped formula also holds. -/
theorem C7_logo_region_amended :
    (∀ s : ℤ,
      logo_area_top s
          = (page_geom s).page_top + (page_geom s).fold
            + max 1 (truncQ ((s : ℚ) * (4 / 100))) ∧
      logo_area_bottom s
          = (page_geom s).page_bottom - max 4 (truncQ ((s : ℚ) * (2 / 10))) ∧
      logo_center_x s
          = (((page_geom s).page_left : ℚ) + ((page_geom s).page_right : ℚ)) / 2 ∧
      logo_size s
          = min ((((page_geom s).page_right : ℚ) - ((page_geom s).page_left : ℚ)) * (55 / 100))
              (((logo_area_bottom s : ℚ) - (logo_area_top s : ℚ)) * (85 / 100))) ∧
    ∀ s ∈ ICO_SIZES, 32 ≤ s → logo_area_top s = spec_logo_area_top s := by
  constructor
  · intro s
    refine ⟨rfl, rfl, ?_, ?_⟩
    · rw [logo_center_x]; push_cast; ring
    · rw [logo_size]; congr 1 <;> push_cast <;> ring
  · intro s hs h32
    simp only [ICO_SIZES, List.mem_cons, List.not_mem_nil, or_false] at hs
    rcases hs with rfl | rfl | rfl | rfl | rfl
    · exact absurd h32 (by decide)
    · have h : truncQ (((32 : ℤ) : ℚ) * (4 / 100)) = 1 :=
        truncQ_eq _ 1 (by norm_num) (by norm_num) (by norm_num)
      simp only [logo_area_top, spec_logo_area_top, h]; omega
    · have h : truncQ (((48 : ℤ) : ℚ) * (4 / 100)) = 1 :=
        truncQ_eq _ 1 (by norm_num) (by norm_num) (by norm_num)
      simp only [logo_area_top, spec_logo_area_top, h]; omega
    · have h : truncQ (((64 : ℤ) : ℚ) * (4 / 100)) = 2 :=
        truncQ_eq _ 2 (by norm_num) (by norm_num) (by norm_num)
      simp only [logo_area_top, spec_logo_area_top, h]; omega
    · have h : truncQ (((256 : ℤ) : ℚ) * (4 / 100)) = 10 :=
        truncQ_eq _ 10 (by norm_num) (by norm_num) (by norm_num)
      simp only [logo_area_top, spec_logo_area_top, h]; omega

/-- Witness for the amended C7 at s = 32. -/
theorem C7_logo_region_amended_witness :
    (32 : ℤ) ∈ ICO_SIZES ∧ (32 : ℤ) ≤ 32 ∧ logo_area_top 32 = spec_logo_area_top 32 :=
  ⟨by decide, by decide, C7_logo_region_amended.2 32 (by decide) (by decide)⟩

end IconGen
